import Mathlib

/-
Shallow embedding of the shiji/dingus task runner (Go sources) for checking
the natural-language specification against the code.

Modelled components and their source files:
  - config data model            : src/config/config.go
  - flag provider and sentinel   : src/unnamed/part_007 (package variables, flag provider)
  - variable resolution engine   : src/variables/variable_provider.go
  - prompt executor              : src/prompt/prompt_executor.go
  - template renderer            : src/unnamed/part_000 (package template)
  - command tree builder         : src/main.go

External collaborators (the shell CommandExecutor, the huh prompt widgets and
the Go text/template engine) are modelled at their documented interface
boundary: the executor is a function from a command string to an outcome
(process error, stdout, stderr), the widgets are response oracles, and the
template engine is modelled on the field-reference subset of its syntax with
the documented default missingkey behaviour (a missing or nil value renders
as the placeholder text, with no error).

Side effects (child processes spawned, prompts shown) are tracked explicitly:
every effectful operation returns its result paired with the list of effects
it performed, so that claims of the form no command is executed or no prompt
is shown become statements about that list.
-/

set_option autoImplicit false

namespace Shiji

/-- Values held by Go interface-typed (any) slots: variable values are nil,
strings, booleans, integers or string lists, depending on which source
resolved them. -/
inductive GoValue where
  | nil
  | str (s : String)
  | boolean (b : Bool)
  | num (n : Int)
  | list (xs : List String)
  deriving DecidableEq, Repr

/-- Text prompt definition from src/config/config.go. -/
structure TextPromptDefinition where
  description : String
  default : String
  multiLine : Bool
  deriving DecidableEq, Repr

/-- Select prompt definition from src/config/config.go: a static option list
or a command whose stdout supplies the options. -/
structure SelectPromptDefinition where
  description : String
  options : List String
  optionsFrom : Option String
  multiple : Bool
  deriving DecidableEq, Repr

/-- Confirm prompt definition from src/config/config.go. -/
structure ConfirmPromptDefinition where
  description : String
  affirmative : String
  negative : String
  deriving DecidableEq, Repr

/-- Prompt definition: optional Text, Select, MultiSelect and Confirm slots,
matching the fields read by src/prompt/prompt_executor.go (which dispatches on
Text, Select, MultiSelect and Confirm in that order). -/
structure PromptDefinition where
  text : Option TextPromptDefinition
  select : Option SelectPromptDefinition
  multiSelect : Option SelectPromptDefinition
  confirm : Option ConfirmPromptDefinition
  deriving DecidableEq, Repr

/-- Variable definition from src/config/config.go. Value models the Go any
field (none for Go nil), ValueFrom the optional command, Flag the optional
override flag name (empty string for absent, as in Go). -/
structure VariableDefinition where
  description : String
  value : Option GoValue
  valueFrom : Option String
  flag : String
  prompt : Option PromptDefinition
  required : Bool
  deriving DecidableEq, Repr

/-- Command definition from src/config/config.go: alias list, description,
execute template (empty string for absent, the Go zero value), subcommands
and locally scoped variables. -/
inductive CommandDefinition where
  | mk (aliasList : List String) (description : String) (execute : String)
       (commands : List (String × CommandDefinition))
       (vars : List (String × VariableDefinition))

def CommandDefinition.aliasList : CommandDefinition → List String
  | .mk a _ _ _ _ => a

def CommandDefinition.description : CommandDefinition → String
  | .mk _ d _ _ _ => d

def CommandDefinition.execute : CommandDefinition → String
  | .mk _ _ e _ _ => e

def CommandDefinition.commands : CommandDefinition → List (String × CommandDefinition)
  | .mk _ _ _ c _ => c

def CommandDefinition.vars : CommandDefinition → List (String × VariableDefinition)
  | .mk _ _ _ _ v => v

/-- Root configuration from src/config/config.go. -/
structure Config where
  description : String
  vars : List (String × VariableDefinition)
  commands : List (String × CommandDefinition)

/-- Outcome of running a command through the CommandExecutor interface
(src/execution/executor.go): the error returned by Run (some message on
non-zero exit or spawn failure, none on success) together with what the child
wrote to the supplied stdout and stderr writers. -/
structure ExecOutcome where
  err : Option String
  stdout : String
  stderr : String

/-- The CommandExecutor collaborator, modelled as a function from the command
string to its outcome. -/
def Exec : Type := String → ExecOutcome

/-- Response oracles for the huh prompt widgets: each Run call either returns
the value the user entered or an error from the widget. -/
structure UI where
  textRun : TextPromptDefinition → Except String String
  selectRun : SelectPromptDefinition → List String → Except String String
  multiRun : SelectPromptDefinition → List String → Except String (List String)
  confirmRun : ConfirmPromptDefinition → Except String Bool

/-- Observable side effects of resolution: a child process spawned through the
CommandExecutor, or a prompt widget shown to the user. -/
inductive Effect where
  | executed (cmd : String)
  | prompted
  deriving DecidableEq, Repr

/-- Association-list lookup, modelling Go map indexing (first entry with the
given key). -/
def lookupAssoc {α : Type} (l : List (String × α)) (k : String) : Option α :=
  (l.find? (fun kv => kv.1 == k)).map (fun kv => kv.2)

/-- Go map assignment m[k] = v: the entry for k is replaced (or added).
Only lookupAssoc observes the bag, so the representation order is immaterial. -/
def insertVar {α : Type} (bag : List (String × α)) (k : String) (v : α) :
    List (String × α) :=
  (k, v) :: bag.filter (fun kv => kv.1 != k)

/-- Resolved variable bag (Go map from string to any), from
src/variables/variable_provider.go. -/
def Variables : Type := List (String × GoValue)

/-- Sentinel default for every bound flag, from the flag provider file
(package variables): distinguishes a flag that was declared but not supplied. -/
def UnsetFlagSentinel : String := "SHIJI_UNSET_FLAG"

/-- State of the cobra flag set visible to one command: registered flag names
mapped to their current string values (the sentinel unless the user supplied
the flag on the command line). -/
def FlagState : Type := List (String × String)

/-- GetFlagValue from the flag provider file: look the key up among the
registered flags; report not supplied (none) when the flag is unknown or
still holds the sentinel, otherwise the supplied string. -/
def GetFlagValue (flags : FlagState) (key : String) : Option String :=
  match lookupAssoc flags key with
  | none => none
  | some v => if v = UnsetFlagSentinel then none else some v

/-- Flag name chosen in bindVariablesToCommand (src/main.go): the custom Flag
field when non-empty, else the variable key. -/
def flagNameFor (key : String) (v : VariableDefinition) : String :=
  if v.flag.length > 0 then v.flag else key

/-- Model of bindVariablesToCommand (src/main.go) followed by command-line
parsing: each variable definition registers one string flag named by
flagNameFor with the sentinel as default; a flag the user supplied (the
supplied list) holds the supplied string instead. -/
def bindVariablesToCommand (defs : List (String × VariableDefinition))
    (supplied : List (String × String)) : FlagState :=
  defs.map (fun kv =>
    let fn := flagNameFor kv.1 kv.2
    (fn, match lookupAssoc supplied fn with
         | some v => v
         | none => UnsetFlagSentinel))

/-- TrimRight(s, newline-and-space cutset) from Go strings, as used on
captured stdout in src/variables/variable_provider.go and
src/prompt/prompt_executor.go. -/
def trimRightCut (s : String) : String :=
  String.mk ((s.data.reverse.dropWhile (fun c => c = '\n' || c = ' ')).reverse)

/-- getPromptOptionsFromCommand (src/prompt/prompt_executor.go): run the
options command with buffered stdout/stderr; a process error is returned
first, then a non-empty stderr becomes the error message verbatim, else the
options are the lines of the right-trimmed stdout. -/
def getPromptOptionsFromCommand (exec : Exec) (cmd : String) :
    Except String (List String) × List Effect :=
  let o := exec cmd
  match o.err with
  | some e => (.error e, [.executed cmd])
  | none =>
    if o.stderr ≠ "" then (.error o.stderr, [.executed cmd])
    else (.ok ((trimRightCut o.stdout).splitOn "\n"), [.executed cmd])

/-- makeOptions (src/prompt/prompt_executor.go): a non-empty static option
list is used as given (no command runs); otherwise, when an options command
is configured, its output supplies the options; with neither, the option
list is empty and no error is raised. -/
def makeOptions (exec : Exec) (d : SelectPromptDefinition) :
    Except String (List String) × List Effect :=
  if d.options.length > 0 then (.ok d.options, [])
  else
    match d.optionsFrom with
    | some cmd => getPromptOptionsFromCommand exec cmd
    | none => (.ok [], [])

/-- executeTextPrompt (src/prompt/prompt_executor.go): show the text widget
prefilled with the default; a widget error propagates. -/
def executeTextPrompt (ui : UI) (d : TextPromptDefinition) :
    Except String GoValue × List Effect :=
  (match ui.textRun d with
   | .error e => .error e
   | .ok v => .ok (.str v), [.prompted])

/-- executeSelectPrompt (src/prompt/prompt_executor.go): build the options,
then show the single-select widget. -/
def executeSelectPrompt (exec : Exec) (ui : UI) (d : SelectPromptDefinition) :
    Except String GoValue × List Effect :=
  match makeOptions exec d with
  | (.error e, effs) => (.error e, effs)
  | (.ok opts, effs) =>
    (match ui.selectRun d opts with
     | .error e => .error e
     | .ok v => .ok (.str v), effs ++ [.prompted])

/-- executeMultiSelectPrompt (src/prompt/prompt_executor.go): build the
options, then show the multi-select widget; the result is a string list. -/
def executeMultiSelectPrompt (exec : Exec) (ui : UI) (d : SelectPromptDefinition) :
    Except String GoValue × List Effect :=
  match makeOptions exec d with
  | (.error e, effs) => (.error e, effs)
  | (.ok opts, effs) =>
    (match ui.multiRun d opts with
     | .error e => .error e
     | .ok vs => .ok (.list vs), effs ++ [.prompted])

/-- executeConfirmPrompt (src/prompt/prompt_executor.go): show the confirm
widget; the result is a boolean. -/
def executeConfirmPrompt (ui : UI) (d : ConfirmPromptDefinition) :
    Except String GoValue × List Effect :=
  (match ui.confirmRun d with
   | .error e => .error e
   | .ok b => .ok (.boolean b), [.prompted])

/-- Number of populated prompt kinds, the count computed by
ensureMutualExclusivity (src/prompt/prompt_executor.go). -/
def promptCount (p : PromptDefinition) : Nat :=
  (if p.text.isSome then 1 else 0) + (if p.select.isSome then 1 else 0)
    + (if p.multiSelect.isSome then 1 else 0) + (if p.confirm.isSome then 1 else 0)

/-- ensureMutualExclusivity (src/prompt/prompt_executor.go): more than one
populated prompt kind and zero populated prompt kinds are configuration
errors, with the error messages used by the Go code. -/
def ensureMutualExclusivity (p : PromptDefinition) : Option String :=
  if promptCount p > 1 then some "only one prompt type can be specified"
  else if promptCount p = 0 then some "no prompts have been specified"
  else none

/-- Execute of the prompt executor (src/prompt/prompt_executor.go): validate
mutual exclusivity first (returning the error with no effects performed),
then dispatch on the populated prompt kind in source order. -/
def PromptExecutor.Execute (exec : Exec) (ui : UI) (p : PromptDefinition) :
    Except String GoValue × List Effect :=
  match ensureMutualExclusivity p with
  | some e => (.error e, [])
  | none =>
    match p.text with
    | some t => executeTextPrompt ui t
    | none =>
      match p.select with
      | some s => executeSelectPrompt exec ui s
      | none =>
        match p.multiSelect with
        | some m => executeMultiSelectPrompt exec ui m
        | none =>
          match p.confirm with
          | some c => executeConfirmPrompt ui c
          | none => (.error "no prompts have been specified", [])

/-- getVariableValueFromCommand (src/variables/variable_provider.go): run the
command with buffered stdout/stderr; a process error is returned first, then
a non-empty stderr becomes the error message verbatim, else the value is the
right-trimmed stdout. -/
def getVariableValueFromCommand (exec : Exec) (cmd : String) :
    Except String String × List Effect :=
  let o := exec cmd
  match o.err with
  | some e => (.error e, [.executed cmd])
  | none =>
    if o.stderr ≠ "" then (.error o.stderr, [.executed cmd])
    else (.ok (trimRightCut o.stdout), [.executed cmd])

/-- getVariableValue (src/variables/variable_provider.go): flag override
first (looked up under the variable key), then the literal value, then the
value-from command, then the prompt; with no source, nil for a non-required
variable and a required-variable error otherwise. -/
def getVariableValue (exec : Exec) (ui : UI) (flags : FlagState)
    (name : String) (v : VariableDefinition) :
    Except String GoValue × List Effect :=
  match GetFlagValue flags name with
  | some flagValue => (.ok (.str flagValue), [])
  | none =>
    match v.value with
    | some lit => (.ok lit, [])
    | none =>
      match v.valueFrom with
      | some cmd =>
        match getVariableValueFromCommand exec cmd with
        | (.error e, effs) => (.error e, effs)
        | (.ok s, effs) => (.ok (.str s), effs)
      | none =>
        match v.prompt with
        | some p => PromptExecutor.Execute exec ui p
        | none =>
          if !v.required then (.ok .nil, [])
          else (.error ("variable " ++ name ++ " is required"), [])

/-- Resolution loop body of GetVariablesFor
(src/variables/variable_provider.go): resolve each definition in turn,
inserting into the bag, stopping at the first error. -/
def resolveVariableList (exec : Exec) (ui : UI) (flags : FlagState) :
    List (String × VariableDefinition) → Variables → Except String Variables
  | [], bag => .ok bag
  | (k, v) :: rest, bag =>
    match (getVariableValue exec ui flags k v).1 with
    | .error e => .error e
    | .ok val => resolveVariableList exec ui flags rest (insertVar bag k val)

/-- GetVariablesFor (src/variables/variable_provider.go): resolve the
root-level config variables, then the command definitions own variables on
top of them (a TODO comment in the source notes that inherited variables
from intermediate ancestors are not supported). -/
def GetVariablesFor (exec : Exec) (ui : UI) (cfg : Config)
    (d : CommandDefinition) (flags : FlagState) : Except String Variables :=
  match resolveVariableList exec ui flags cfg.vars [] with
  | .error e => .error e
  | .ok bag => resolveVariableList exec ui flags d.vars bag

/-- Node of the built cobra command tree: use (name), short description,
aliases, built children and the flag names registered on the node by
bindVariablesToCommand. Every node built by createCobraCommand carries a
RunE handler (resolution, rendering, execution), so every node is invocable. -/
inductive CobraCommand where
  | mk (use : String) (short : String) (aliases : List String)
       (children : List CobraCommand) (flags : List String)

def CobraCommand.use : CobraCommand → String
  | .mk u _ _ _ _ => u

def CobraCommand.children : CobraCommand → List CobraCommand
  | .mk _ _ _ c _ => c

/-- Flag names registered on a node, as in bindVariablesToCommand
(src/main.go). -/
def registeredFlagNames (defs : List (String × VariableDefinition)) : List String :=
  defs.map (fun kv => flagNameFor kv.1 kv.2)

mutual

/-- createCobraCommand (src/main.go): build the node for a definition and
recursively build one child per subcommand. The function is total: the source
performs no validation of any kind on the definition, in particular a
definition with neither an execution template nor subcommands is built like
any other. -/
def createCobraCommand : String → CommandDefinition → CobraCommand
  | name, .mk al ds _ cs vs =>
    .mk name ds al (createSubCommands cs) (registeredFlagNames vs)

/-- Recursion over the subcommand list of createCobraCommand (the AddCommand
loop in src/main.go). -/
def createSubCommands : List (String × CommandDefinition) → List CobraCommand
  | [] => []
  | (k, d) :: rest => createCobraCommand k d :: createSubCommands rest

end

mutual

/-- Follows the words of the specification (sections 4.1 and 7), for
comparison with createCobraCommand: tree construction rejects, with a
configuration-shape error, any node that has neither an execution template
nor any subcommands, and otherwise builds the node recursively. -/
def specCreateCobraCommand : String → CommandDefinition → Except String CobraCommand
  | name, .mk al ds ex cs vs =>
    if ex = "" ∧ cs.isEmpty then
      .error ("command " ++ name ++ " has neither an execution template nor subcommands")
    else
      match specCreateSubCommands cs with
      | .error e => .error e
      | .ok children => .ok (.mk name ds al children (registeredFlagNames vs))

/-- Recursion over the subcommand list of specCreateCobraCommand. -/
def specCreateSubCommands : List (String × CommandDefinition) → Except String (List CobraCommand)
  | [] => .ok []
  | (k, d) :: rest =>
    match specCreateCobraCommand k d with
    | .error e => .error e
    | .ok c =>
      match specCreateSubCommands rest with
      | .error e => .error e
      | .ok cs => .ok (c :: cs)

end

/-- Parsed node of a command template: literal text or a variable (field)
reference. -/
inductive TemplateNode where
  | text (s : String)
  | field (name : String)
  deriving DecidableEq, Repr

/-- Opening brace character, written by code point to keep brace handling in
one place. -/
def lbrace : Char := Char.ofNat 123

/-- Closing brace character. -/
def rbrace : Char := Char.ofNat 125

/-- Fuelled parser for the field-reference subset of the Go text/template
syntax used by the command templates: a double opening brace, a dot, a field
name and a double closing brace form a field reference; everything else is
literal text; a malformed action is a parse error, as in text/template. The
fuel argument only bounds the recursion and never runs out when it starts at
the input length plus one, since every step consumes at least one character. -/
def parseNodesF : Nat → List Char → Except String (List TemplateNode)
  | _, [] => .ok []
  | 0, _ :: _ => .error "template: parser fuel exhausted"
  | Nat.succ f, c1 :: rest1 =>
    if c1 = lbrace ∧ rest1.head? = some lbrace then
      match rest1 with
      | _ :: c3 :: rest3 =>
        if c3 = '.' then
          let nm := rest3.takeWhile (fun c => c ≠ rbrace)
          match rest3.dropWhile (fun c => c ≠ rbrace) with
          | _ :: d2 :: rest4 =>
            if d2 = rbrace then
              match parseNodesF f rest4 with
              | .ok ns => .ok (.field (String.mk nm) :: ns)
              | .error e => .error e
            else .error "template: bad character in action name"
          | _ => .error "template: unclosed action"
        else .error "template: unsupported action"
      | _ => .error "template: unclosed action"
    else
      match parseNodesF f rest1 with
      | .ok ns => .ok (.text (String.mk [c1]) :: ns)
      | .error e => .error e

/-- Template parser entry point (the template.Parse call in the renderer). -/
def parseNodes (cs : List Char) : Except String (List TemplateNode) :=
  parseNodesF (cs.length + 1) cs

/-- Placeholder the Go text/template engine prints for a missing or nil value
under its default missingkey option (the renderer never sets an option). -/
def noValuePlaceholder : String := "<no value>"

/-- Formatting of a bag value by the template engine (the fmt package print
verbs used by text/template). -/
def formatValue : GoValue → String
  | .nil => noValuePlaceholder
  | .str s => s
  | .boolean b => if b then "true" else "false"
  | .num n => toString n
  | .list xs => "[" ++ String.intercalate " " xs ++ "]"

/-- Execution of a parsed template against the variable bag: a field
reference found in the bag prints its formatted value; a reference missing
from the bag prints the placeholder and execution continues without error
(the documented default missingkey behaviour of text/template). -/
def renderNodes (vars : Variables) : List TemplateNode → String
  | [] => ""
  | .text s :: rest => s ++ renderNodes vars rest
  | .field n :: rest =>
    (match lookupAssoc vars n with
     | some v => formatValue v
     | none => noValuePlaceholder) ++ renderNodes vars rest

/-- RenderTemplate (src/unnamed/part_000, package template): parse the
template, then execute it against the variable bag. -/
def RenderTemplate (templateString : String) (vars : Variables) :
    Except String String :=
  match parseNodes templateString.data with
  | .error e => .error e
  | .ok ns => .ok (renderNodes vars ns)

/-- Concrete executor for evaluations: every command succeeds with empty
stdout and stderr. -/
def exec0 : Exec := fun _ => ⟨none, "", ""⟩

/-- Concrete prompt oracle for evaluations. -/
def ui0 : UI := ⟨fun _ => .ok "", fun _ _ => .ok "", fun _ _ => .ok [], fun _ => .ok true⟩

/-- Lookup in the empty list is always none. -/
theorem lookupAssoc_nil {α : Type} (k : String) :
    lookupAssoc ([] : List (String × α)) k = none := rfl

/-- Filtering out the entries with key k does not change a lookup for a
different key. -/
theorem find?_filter_ne {α : Type} (bag : List (String × α)) (k k' : String)
    (h : k' ≠ k) :
    List.find? (fun kv => kv.1 == k') (List.filter (fun kv => kv.1 != k) bag) =
      List.find? (fun kv => kv.1 == k') bag := by
  induction bag with
  | nil => rfl
  | cons a rest ih =>
    by_cases ha : a.1 = k
    · have ha' : (a.1 == k') = false := by
        simp only [beq_eq_false_iff_ne, ne_eq, ha]
        exact fun hh => h hh.symm
      have hkk : (k == k') = false := by
        simp only [beq_eq_false_iff_ne, ne_eq]
        exact fun hh => h hh.symm
      simp [List.filter_cons, List.find?_cons, ha, ha', hkk, ih]
    · by_cases ha' : a.1 = k'
      · simp [List.filter_cons, List.find?_cons, ha, ha', h]
      · simp [List.filter_cons, List.find?_cons, ha, ha', ih]

/-- Lookup after a Go map assignment: the assigned key reads the new value,
every other key is unchanged. -/
theorem lookupAssoc_insertVar {α : Type} (bag : List (String × α)) (k : String)
    (v : α) (k' : String) :
    lookupAssoc (insertVar bag k v) k' =
      if k' = k then some v else lookupAssoc bag k' := by
  by_cases h : k' = k
  · subst h
    simp [insertVar, lookupAssoc, List.find?_cons]
  · have hk : (k == k') = false := by
      simp only [beq_eq_false_iff_ne, ne_eq]
      exact fun hh => h hh.symm
    simp only [insertVar, lookupAssoc, List.find?_cons, hk, if_neg h]
    rw [find?_filter_ne _ _ _ h]

/-- Keys present in the bag before the resolution loop are still present
after a successful run of the loop. -/
theorem resolveVariableList_mono (exec : Exec) (ui : UI) (flags : FlagState)
    (lst : List (String × VariableDefinition)) :
    ∀ (bag0 bag : Variables),
      resolveVariableList exec ui flags lst bag0 = .ok bag →
      ∀ k, (lookupAssoc bag0 k).isSome = true → (lookupAssoc bag k).isSome = true := by
  induction lst with
  | nil =>
    intro bag0 bag h k hk
    simp only [resolveVariableList, Except.ok.injEq] at h
    exact h ▸ hk
  | cons kv rest ih =>
    intro bag0 bag h k hk
    obtain ⟨k0, v0⟩ := kv
    cases hgv : (getVariableValue exec ui flags k0 v0).1 with
    | error e => simp [resolveVariableList, hgv] at h
    | ok val =>
      simp only [resolveVariableList, hgv] at h
      refine ih _ _ h k ?_
      rw [lookupAssoc_insertVar]
      by_cases hkk : k = k0
      · simp [hkk]
      · simpa [hkk] using hk

/-- Every key defined in the list that the resolution loop walks is present
in the resulting bag when the loop succeeds. -/
theorem resolveVariableList_covers (exec : Exec) (ui : UI) (flags : FlagState)
    (lst : List (String × VariableDefinition)) :
    ∀ (bag0 bag : Variables),
      resolveVariableList exec ui flags lst bag0 = .ok bag →
      ∀ k, (lookupAssoc lst k).isSome = true → (lookupAssoc bag k).isSome = true := by
  induction lst with
  | nil =>
    intro bag0 bag _ k hk
    simp [lookupAssoc] at hk
  | cons kv rest ih =>
    intro bag0 bag h k hk
    obtain ⟨k0, v0⟩ := kv
    cases hgv : (getVariableValue exec ui flags k0 v0).1 with
    | error e => simp [resolveVariableList, hgv] at h
    | ok val =>
      simp only [resolveVariableList, hgv] at h
      by_cases hkk : k0 = k
      · refine resolveVariableList_mono exec ui flags rest _ _ h k ?_
        rw [lookupAssoc_insertVar]
        simp [hkk.symm]
      · refine ih _ _ h k ?_
        simpa [lookupAssoc, List.find?_cons, hkk] using hk

/-- When the resolution loop fails, the error is the error of one of the
variables in the list it walks. -/
theorem resolveVariableList_error (exec : Exec) (ui : UI) (flags : FlagState)
    (lst : List (String × VariableDefinition)) :
    ∀ (bag0 : Variables) (e : String),
      resolveVariableList exec ui flags lst bag0 = .error e →
      ∃ kv ∈ lst, (getVariableValue exec ui flags kv.1 kv.2).1 = .error e := by
  induction lst with
  | nil =>
    intro bag0 e h
    simp [resolveVariableList] at h
  | cons kv rest ih =>
    intro bag0 e h
    obtain ⟨k0, v0⟩ := kv
    cases hgv : (getVariableValue exec ui flags k0 v0).1 with
    | error e0 =>
      simp only [resolveVariableList, hgv, Except.error.injEq] at h
      exact ⟨(k0, v0), by simp, by rw [hgv, h]⟩
    | ok val =>
      simp only [resolveVariableList, hgv] at h
      obtain ⟨kv2, hmem, hkv2⟩ := ih _ _ h
      exact ⟨kv2, List.mem_cons_of_mem _ hmem, hkv2⟩

/-- Variable for the C1 evaluation: key name, custom flag name user, literal
value Dingus. -/
def varC1 : VariableDefinition := ⟨"", some (.str "Dingus"), none, "user", none, false⟩

/-- The same variable without a custom flag name. -/
def varC1plain : VariableDefinition := ⟨"", some (.str "Dingus"), none, "", none, false⟩

/-- Flag state after binding varC1 under key name and parsing a command line
that supplies the custom flag user with the value Godzilla. -/
def flagsC1 : FlagState := bindVariablesToCommand [("name", varC1)] [("user", "Godzilla")]

/-- C1: the claim states that a variable whose command-line flag (the custom
override flag name when given) is supplied with a non-sentinel value resolves
to that supplied string. The code registers the flag under the custom name
but getVariableValue looks it up under the variable key, so the supplied
value Godzilla is ignored and the literal Dingus is returned instead; with no
custom flag name the supplied value is honoured. This evaluation exhibits the
divergence at the failing input. -/
theorem C1_custom_flag_override_ignored :
    flagsC1 = [("user", "Godzilla")] ∧
    GetFlagValue flagsC1 "user" = some "Godzilla" ∧
    getVariableValue exec0 ui0 flagsC1 "name" varC1 = (.ok (.str "Dingus"), []) ∧
    getVariableValue exec0 ui0
        (bindVariablesToCommand [("name", varC1plain)] [("name", "Godzilla")])
        "name" varC1plain = (.ok (.str "Godzilla"), []) :=
  ⟨rfl, rfl, rfl, rfl⟩

/-- Variable env with literal value prod, defined on command a for the C2
evaluation. -/
def envVarC2 : VariableDefinition := ⟨"", some (.str "prod"), none, "", none, false⟩

/-- Subcommand b of a: has an execution template and no own variables. -/
def bDefC2 : CommandDefinition := .mk [] "" "echo x" [] []

/-- Command a: defines env=prod and has subcommand b. -/
def aDefC2 : CommandDefinition := .mk [] "" "" [("b", bDefC2)] [("env", envVarC2)]

/-- Configuration with no root-level variables and the single command a. -/
def cfgC2 : Config := ⟨"", [], [("a", aDefC2)]⟩

/-- C2: the claim states that the bag at a node contains the union of all
variable definitions visible at that node, its ancestors included. In the
code GetVariablesFor only consults the root-level config variables and the
definitions of the resolving node itself (the source carries a TODO about
inherited variables), so resolving at subcommand b of a, where a defines
env=prod, yields a bag without env, while resolving at a itself yields
env=prod. This evaluation exhibits the divergence at the failing input. -/
theorem C2_ancestor_variables_not_inherited :
    aDefC2.commands = [("b", bDefC2)] ∧
    GetVariablesFor exec0 ui0 cfgC2 aDefC2 [] = .ok [("env", .str "prod")] ∧
    GetVariablesFor exec0 ui0 cfgC2 bDefC2 [] = .ok [] ∧
    lookupAssoc ([] : Variables) "env" = none :=
  ⟨rfl, rfl, rfl, rfl⟩

/-- Dead-end command definition: no execution template, no subcommands. -/
def deadDefC3 : CommandDefinition := .mk [] "" "" [] []

/-- C3 counterexample: the claim states that tree construction fails fast on
a definition with neither an execution template nor subcommands and that such
a node is never built. The code builds the node: createCobraCommand returns
it, while the construction the specification describes would reject it. -/
theorem C3_counterexample :
    createCobraCommand "dead" deadDefC3 = .mk "dead" "" [] [] [] ∧
    specCreateCobraCommand "dead" deadDefC3 =
      .error "command dead has neither an execution template nor subcommands" :=
  ⟨rfl, rfl⟩

/-- C3 (amended): command-tree construction performs no dead-end validation:
a definition with no execution template and no subcommands is built into the
tree like any other node, with its flags registered, and no
configuration-shape error exists at construction time. -/
theorem C3_amended_no_dead_end_validation (name : String) (al : List String)
    (ds : String) (vs : List (String × VariableDefinition)) :
    createCobraCommand name (.mk al ds "" [] vs) =
      .mk name ds al [] (registeredFlagNames vs) := rfl

/-- Executor whose child process fails (non-zero exit) and also writes to
stderr. -/
def execC4bad : Exec := fun _ => ⟨some "exit status 1", "", "boom"⟩

/-- C4 counterexample: the claim states that for a value-from-command
variable with non-empty stderr the resolution error equals the stderr text
verbatim regardless of the exit status. When the process exits non-zero the
code returns the executor error first, not the captured stderr. -/
theorem C4_counterexample :
    (execC4bad "failing-cmd").stderr = "boom" ∧
    getVariableValueFromCommand execC4bad "failing-cmd" =
      (.error "exit status 1", [.executed "failing-cmd"]) ∧
    "exit status 1" ≠ "boom" :=
  ⟨rfl, rfl, by decide⟩

/-- C4 (amended): for a value-from-command variable, when the executor
reports no error and stderr is non-empty, resolution fails with exactly the
captured stderr text; when the executor itself reports an error (non-zero
exit or spawn failure), that error is returned instead, whatever stderr
holds. -/
theorem C4_amended_stderr_after_exec_error (exec : Exec) (cmd : String) :
    ((exec cmd).err = none → (exec cmd).stderr ≠ "" →
      getVariableValueFromCommand exec cmd =
        (.error (exec cmd).stderr, [.executed cmd])) ∧
    (∀ e, (exec cmd).err = some e →
      getVariableValueFromCommand exec cmd = (.error e, [.executed cmd])) := by
  constructor
  · intro h1 h2
    simp [getVariableValueFromCommand, h1, h2]
  · intro e he
    simp [getVariableValueFromCommand, he]

/-- Executor whose child process succeeds but writes boom to stderr. -/
def execC4stderr : Exec := fun _ => ⟨none, "", "boom"⟩

/-- C4 witness: the amended theorem applied at a concrete executor outcome. -/
theorem C4_witness :
    (execC4stderr "c").err = none ∧ (execC4stderr "c").stderr ≠ "" ∧
    getVariableValueFromCommand execC4stderr "c" =
      (.error "boom", [.executed "c"]) := by
  refine ⟨rfl, by decide, ?_⟩
  exact (C4_amended_stderr_after_exec_error execC4stderr "c").1 rfl (by decide)

/-- C5 counterexample: the claim states that a template referencing a
variable absent from the bag fails to render with an error naming the
reference. The code renders it successfully, substituting the text/template
placeholder. The template below is the two-brace dot-name action written with
escaped braces. -/
theorem C5_counterexample :
    RenderTemplate "\x7b\x7b.name\x7d\x7d" [] = .ok "<no value>" ∧
    lookupAssoc ([] : Variables) "name" = none :=
  ⟨rfl, rfl⟩

/-- C5 (amended): once the template parses, rendering never fails, whatever
the bag holds: a field reference missing from the bag renders as the
placeholder text, and the rendered output is the concatenation semantics of
renderNodes. -/
theorem C5_amended_missing_renders_placeholder (s : String) (vars : Variables)
    (ns : List TemplateNode) (h : parseNodes s.data = .ok ns) :
    RenderTemplate s vars = .ok (renderNodes vars ns) ∧
    (∀ n, lookupAssoc vars n = none →
      renderNodes vars [TemplateNode.field n] = noValuePlaceholder) := by
  constructor
  · simp [RenderTemplate, h]
  · intro n hn
    simp [renderNodes, hn]

/-- C5 witness: the amended theorem applied to the concrete template made of
one field reference to name against a bag not containing name. -/
theorem C5_witness :
    parseNodes ("\x7b\x7b.name\x7d\x7d").data = .ok [TemplateNode.field "name"] ∧
    RenderTemplate "\x7b\x7b.name\x7d\x7d" [("x", GoValue.str "1")] =
      .ok (renderNodes [("x", GoValue.str "1")] [TemplateNode.field "name"]) ∧
    renderNodes [("x", GoValue.str "1")] [TemplateNode.field "name"] =
      noValuePlaceholder := by
  refine ⟨rfl, ?_, ?_⟩
  · exact (C5_amended_missing_renders_placeholder "\x7b\x7b.name\x7d\x7d"
      [("x", GoValue.str "1")] [TemplateNode.field "name"] rfl).1
  · exact (C5_amended_missing_renders_placeholder "\x7b\x7b.name\x7d\x7d"
      [("x", GoValue.str "1")] [TemplateNode.field "name"] rfl).2 "name" rfl

/-- Concrete text prompt for the C6 evaluations. -/
def tDefC6 : TextPromptDefinition := ⟨"", "", false⟩

/-- Concrete select prompt for the C6 evaluations. -/
def sDefC6 : SelectPromptDefinition := ⟨"", [], none, false⟩

/-- C6 counterexample: the claim quotes the validation errors as no prompt
specified and only one prompt type may be specified; the code produces the
messages no prompts have been specified and only one prompt type can be
specified. Validation itself does run first with no UI shown. -/
theorem C6_counterexample :
    PromptExecutor.Execute exec0 ui0 ⟨none, none, none, none⟩ =
      (.error "no prompts have been specified", []) ∧
    PromptExecutor.Execute exec0 ui0 ⟨some tDefC6, some sDefC6, none, none⟩ =
      (.error "only one prompt type can be specified", []) ∧
    "no prompts have been specified" ≠ "no prompt specified" ∧
    "only one prompt type can be specified" ≠ "only one prompt type may be specified" :=
  ⟨rfl, rfl, by decide, by decide⟩

/-- C6 (amended): the prompt executor validates mutual exclusivity before any
UI is shown: zero populated prompt kinds yields the error no prompts have
been specified with no effects, two or more yields the error only one prompt
type can be specified with no effects, and exactly one populated kind
proceeds to that prompt kind. -/
theorem C6_amended_mutual_exclusivity (exec : Exec) (ui : UI) (p : PromptDefinition) :
    (promptCount p = 0 →
      PromptExecutor.Execute exec ui p = (.error "no prompts have been specified", [])) ∧
    (1 < promptCount p →
      PromptExecutor.Execute exec ui p = (.error "only one prompt type can be specified", [])) ∧
    (promptCount p = 1 →
      ((∀ t, p.text = some t →
          PromptExecutor.Execute exec ui p = executeTextPrompt ui t) ∧
       (∀ s, p.select = some s →
          PromptExecutor.Execute exec ui p = executeSelectPrompt exec ui s) ∧
       (∀ m, p.multiSelect = some m →
          PromptExecutor.Execute exec ui p = executeMultiSelectPrompt exec ui m) ∧
       (∀ c, p.confirm = some c →
          PromptExecutor.Execute exec ui p = executeConfirmPrompt ui c))) := by
  obtain ⟨t, s, m, c⟩ := p
  cases t <;> cases s <;> cases m <;> cases c <;>
    simp [PromptExecutor.Execute, ensureMutualExclusivity, promptCount]

/-- Prompt definition with exactly the text kind populated. -/
def pTextC6 : PromptDefinition := ⟨some tDefC6, none, none, none⟩

/-- C6 witness: the amended theorem applied to a definition with exactly one
populated prompt kind. -/
theorem C6_witness :
    promptCount pTextC6 = 1 ∧
    PromptExecutor.Execute exec0 ui0 pTextC6 = executeTextPrompt ui0 tDefC6 := by
  refine ⟨by decide, ?_⟩
  exact ((C6_amended_mutual_exclusivity exec0 ui0 pTextC6).2.2 (by decide)).1 tDefC6 rfl

/-- C7: a variable definition with no value source (no literal, no
value-from command, no prompt) and no flag override resolves to the
missing-required-variable error naming the variable when it is required, and
to the nil (absent) value when it is not; neither path performs any effect. -/
theorem C7_no_source_resolution (exec : Exec) (ui : UI) (flags : FlagState)
    (name : String) (v : VariableDefinition) (hf : GetFlagValue flags name = none)
    (hv : v.value = none) (hc : v.valueFrom = none) (hp : v.prompt = none) :
    getVariableValue exec ui flags name v =
      (if v.required then (.error ("variable " ++ name ++ " is required"), [])
       else (.ok .nil, [])) := by
  cases hr : v.required <;> simp [getVariableValue, hf, hv, hc, hp, hr]

/-- Required variable with no source, for the C7 witness. -/
def varC7req : VariableDefinition := ⟨"", none, none, "", none, true⟩

/-- Non-required variable with no source, for the C7 witness. -/
def varC7opt : VariableDefinition := ⟨"", none, none, "", none, false⟩

/-- C7 witness: the theorem applied at concrete required and non-required
variables with no source and no override. -/
theorem C7_witness :
    GetFlagValue [] "env" = none ∧
    getVariableValue exec0 ui0 [] "env" varC7req =
      (.error "variable env is required", []) ∧
    getVariableValue exec0 ui0 [] "env" varC7opt = (.ok .nil, []) := by
  refine ⟨rfl, ?_, ?_⟩
  · exact C7_no_source_resolution exec0 ui0 [] "env" varC7req rfl rfl rfl rfl
  · exact C7_no_source_resolution exec0 ui0 [] "env" varC7opt rfl rfl rfl rfl

/-- C8: option sourcing for select and multi-select prompts: a non-empty
static option list is presented in configured order and the options command
is not executed (no effects); only when the static list is empty and an
options command is configured are the options taken from that command, and on
a successful run with empty stderr they are the lines of the right-trimmed
stdout. -/
theorem C8_options_precedence (exec : Exec) (d : SelectPromptDefinition) (cmd : String) :
    (d.options ≠ [] → makeOptions exec d = (.ok d.options, [])) ∧
    (d.options = [] → d.optionsFrom = some cmd →
      makeOptions exec d = getPromptOptionsFromCommand exec cmd) ∧
    ((exec cmd).err = none → (exec cmd).stderr = "" →
      getPromptOptionsFromCommand exec cmd =
        (.ok ((trimRightCut (exec cmd).stdout).splitOn "\n"), [.executed cmd])) := by
  refine ⟨?_, ?_, ?_⟩
  · intro h
    cases ho : d.options with
    | nil => exact absurd ho h
    | cons a rest => simp [makeOptions, ho]
  · intro h1 h2
    simp [makeOptions, h1, h2]
  · intro h1 h2
    simp [getPromptOptionsFromCommand, h1, h2]

/-- Select prompt with both a static list and an options command, for the C8
witness. -/
def selC8 : SelectPromptDefinition :=
  ⟨"", ["Development", "Staging", "Production"], some "list-envs", false⟩

/-- C8 witness: the theorem applied at a prompt carrying both sources: the
static list wins and no command runs. -/
theorem C8_witness :
    selC8.options ≠ [] ∧
    makeOptions exec0 selC8 = (.ok ["Development", "Staging", "Production"], []) := by
  refine ⟨by decide, ?_⟩
  exact (C8_options_precedence exec0 selC8 "list-envs").1 (by decide)

/-- C9: when the registered flag for a variable holds exactly the sentinel
string (the user supplied the sentinel as the value), the flag provider
reports the flag as not supplied, and resolution behaves exactly as with no
flags at all, falling through to the configured sources. -/
theorem C9_sentinel_value_falls_through (exec : Exec) (ui : UI)
    (flags : FlagState) (name : String) (v : VariableDefinition)
    (h : lookupAssoc flags name = some UnsetFlagSentinel) :
    GetFlagValue flags name = none ∧
    getVariableValue exec ui flags name v = getVariableValue exec ui [] name v := by
  have hg : GetFlagValue flags name = none := by simp [GetFlagValue, h]
  have hg0 : GetFlagValue ([] : FlagState) name = none := rfl
  exact ⟨hg, by simp [getVariableValue, hg, hg0]⟩

/-- Variable with a literal source, for the C9 witness. -/
def varC9 : VariableDefinition := ⟨"", some (.str "prod"), none, "", none, false⟩

/-- C9 witness: the theorem applied at a flag state where the flag env holds
the sentinel string. -/
theorem C9_witness :
    lookupAssoc [("env", UnsetFlagSentinel)] "env" = some UnsetFlagSentinel ∧
    GetFlagValue [("env", UnsetFlagSentinel)] "env" = none ∧
    getVariableValue exec0 ui0 [("env", UnsetFlagSentinel)] "env" varC9 =
      getVariableValue exec0 ui0 [] "env" varC9 := by
  have h := C9_sentinel_value_falls_through exec0 ui0
    [("env", UnsetFlagSentinel)] "env" varC9 rfl
  exact ⟨rfl, h.1, h.2⟩

/-- C10: resolution is all or nothing: when GetVariablesFor succeeds, the bag
holds an entry for every variable it considers (every root-level config
variable and every variable of the resolving node); when it fails, the result
carries no bag and the error is the error of one of those variables. -/
theorem C10_all_or_nothing (exec : Exec) (ui : UI) (cfg : Config)
    (d : CommandDefinition) (flags : FlagState) :
    (∀ bag, GetVariablesFor exec ui cfg d flags = .ok bag →
      ∀ k, ((lookupAssoc cfg.vars k).isSome = true ∨
            (lookupAssoc d.vars k).isSome = true) →
        (lookupAssoc bag k).isSome = true) ∧
    (∀ e, GetVariablesFor exec ui cfg d flags = .error e →
      ∃ kv ∈ cfg.vars ++ d.vars,
        (getVariableValue exec ui flags kv.1 kv.2).1 = .error e) := by
  constructor
  · intro bag h k hk
    unfold GetVariablesFor at h
    cases hroot : resolveVariableList exec ui flags cfg.vars [] with
    | error e => simp [hroot] at h
    | ok bag1 =>
      rw [hroot] at h
      rcases hk with hk | hk
      · have h1 := resolveVariableList_covers exec ui flags cfg.vars [] bag1 hroot k hk
        exact resolveVariableList_mono exec ui flags d.vars bag1 bag h k h1
      · exact resolveVariableList_covers exec ui flags d.vars bag1 bag h k hk
  · intro e h
    unfold GetVariablesFor at h
    cases hroot : resolveVariableList exec ui flags cfg.vars [] with
    | error e0 =>
      rw [hroot] at h
      have he : e0 = e := by simpa using h
      obtain ⟨kv, hmem, hkv⟩ :=
        resolveVariableList_error exec ui flags cfg.vars [] e (he ▸ hroot)
      exact ⟨kv, List.mem_append_left _ hmem, hkv⟩
    | ok bag1 =>
      rw [hroot] at h
      obtain ⟨kv, hmem, hkv⟩ := resolveVariableList_error exec ui flags d.vars bag1 e h
      exact ⟨kv, List.mem_append_right _ hmem, hkv⟩

/-- Configuration with one root-level literal variable, for the C10 witness. -/
def cfgC10 : Config := ⟨"", [("name", ⟨"", some (.str "Dingus"), none, "", none, false⟩)], []⟩

/-- Command with no own variables, for the C10 witness. -/
def dC10 : CommandDefinition := .mk [] "" "echo" [] []

/-- C10 witness: the theorem applied at a concrete configuration that
resolves successfully. -/
theorem C10_witness :
    GetVariablesFor exec0 ui0 cfgC10 dC10 [] = .ok [("name", GoValue.str "Dingus")] ∧
    (lookupAssoc ([("name", GoValue.str "Dingus")] : Variables) "name").isSome = true := by
  refine ⟨rfl, ?_⟩
  exact (C10_all_or_nothing exec0 ui0 cfgC10 dC10 []).1
    [("name", GoValue.str "Dingus")] rfl "name" (Or.inl (by decide))

end Shiji
